import Mathlib

/-! Formal model of the inventory reservation and offer-lifecycle engine of the
toogoodtogo bot: the domain models (src/models/offer.py,
src/models/reservation.py), the PostgreSQL repositories
(src/storage/postgres_offer_repo.py, src/storage/postgres_reservation_repo.py),
the Redis lock helper (src/storage/redis_locks.py), the reservation flow
service (src/services/reservation_flow.py), the cancellation handler
(src/handlers/purchasing/cancel_reservation_handler.py), the expiration job
(src/services/expiration_job.py) and the sold-out transition service
(src/services/sold_out_transition.py).  Database tables are embedded as lists
of rows, `datetime.utcnow()` is an explicit `now : Nat` parameter, Python `int`
is `Int`, `Decimal` money amounts are exact integer amounts in minor units
(`Int`), and exceptions raised by the stores or by
pydantic validation are explicit outcome values. -/

namespace TGTG

/-- Offer lifecycle status, from src/models/offer.py (`OfferStatus`): exactly
ACTIVE, PAUSED, EXPIRED, EXPIRED_EARLY and SOLD_OUT.  The enum has no DRAFT
member, although src/services/sold_out_transition.py and
src/services/offer_validation.py refer to `OfferStatus.DRAFT`; evaluating
such a reference raises AttributeError, which is modeled at those call
sites. -/
inductive OfferStatus where
  | ACTIVE
  | PAUSED
  | EXPIRED
  | EXPIRED_EARLY
  | SOLD_OUT
deriving DecidableEq

/-- Reservation status, from src/models/reservation.py (`ReservationStatus`). -/
inductive ReservationStatus where
  | CONFIRMED
  | CANCELLED
deriving DecidableEq

/-- Offer row / domain entity, from src/models/offer.py (`Offer`) and the
matching columns of `OfferTable`.  Fields not used by any inventory or
lifecycle operation (title, description, photo, category, timestamps) are
omitted. -/
structure Offer where
  id : Nat
  quantity_total : Int
  quantity_remaining : Int
  price_per_unit : Int
  currency : String
  pickup_start_time : Nat
  pickup_end_time : Nat
  state : OfferStatus
deriving DecidableEq

/-- `Offer.is_expired` property: `datetime.utcnow() >= self.pickup_end_time`. -/
def Offer.is_expired (o : Offer) (now : Nat) : Bool :=
  decide (o.pickup_end_time ≤ now)

/-- `Offer.available_for_reservation` property:
`state == ACTIVE and quantity_remaining > 0 and not is_expired`. -/
def Offer.available_for_reservation (o : Offer) (now : Nat) : Bool :=
  o.state == .ACTIVE && decide (0 < o.quantity_remaining) && !(o.is_expired now)

/-- The pydantic field validators run when an `Offer` domain model is
constructed from a database row (`_to_domain_model`): `quantity_total > 0`
(Field gt=0), `quantity_remaining >= 0` (Field ge=0), `validate_quantity`
(`quantity_remaining <= quantity_total`), `validate_time_range`
(`pickup_start_time < pickup_end_time`) and `price_per_unit > 0` (Field gt=0). -/
def offerModelValidates (o : Offer) : Bool :=
  decide (0 < o.quantity_total) && decide (0 ≤ o.quantity_remaining) &&
    decide (o.quantity_remaining ≤ o.quantity_total) &&
    decide (o.pickup_start_time < o.pickup_end_time) &&
    decide (0 < o.price_per_unit)

/-- `PostgresOfferRepository._to_domain_model`: converting a raw row to the
domain model runs the pydantic validators; an invalid row raises
(`none` models the raised ValidationError). -/
def to_domain_model (row : Offer) : Option Offer :=
  if offerModelValidates row then some row else none

/-- An offers table is a list of rows. -/
abbrev OfferStore := List Offer

/-- `SELECT ... WHERE OfferTable.id == id` returning at most one row. -/
def getOfferRow (store : OfferStore) (id : Nat) : Option Offer :=
  store.find? (fun o => o.id == id)

/-- Mutating the row with the given id (the SQLAlchemy pattern of loading the
row and assigning to its attributes before flush). -/
def updateOfferRow (store : OfferStore) (id : Nat) (f : Offer → Offer) : OfferStore :=
  store.map (fun o => if o.id == id then f o else o)

namespace PostgresOfferRepository

/-- `PostgresOfferRepository.get_by_id` (validation of the returned row by
`_to_domain_model` is applied where a claim depends on it). -/
def get_by_id (store : OfferStore) (id : Nat) : Option Offer :=
  getOfferRow store id

/-- `PostgresOfferRepository.decrement_quantity`: load the row (missing row →
False); if `quantity_remaining < quantity` → False with no change; otherwise
subtract and auto-transition to SOLD_OUT when the remainder reaches 0. -/
def decrement_quantity (store : OfferStore) (id : Nat) (quantity : Int) :
    Bool × OfferStore :=
  match getOfferRow store id with
  | none => (false, store)
  | some row =>
    if row.quantity_remaining < quantity then (false, store)
    else
      (true, updateOfferRow store id (fun o =>
        let rem := o.quantity_remaining - quantity
        { o with quantity_remaining := rem,
                 state := if rem == 0 then .SOLD_OUT else o.state }))

/-- `PostgresOfferRepository.increment_quantity`: load the row (missing row →
False); add `quantity` unconditionally (no upper-bound check against
`quantity_total`); if the row was SOLD_OUT, now has positive remainder and
`pickup_end_time > utcnow()`, revert the state to ACTIVE. -/
def increment_quantity (store : OfferStore) (id : Nat) (quantity : Int)
    (now : Nat) : Bool × OfferStore :=
  match getOfferRow store id with
  | none => (false, store)
  | some _ =>
    (true, updateOfferRow store id (fun o =>
      let rem := o.quantity_remaining + quantity
      { o with quantity_remaining := rem,
               state := if o.state == .SOLD_OUT && decide (0 < rem) &&
                   decide (now < o.pickup_end_time) then .ACTIVE else o.state }))

/-- `PostgresOfferRepository.update_state` (the state-update call sites in the
services name it `update_status`): set the row's lifecycle state. -/
def update_state (store : OfferStore) (id : Nat) (st : OfferStatus) : OfferStore :=
  updateOfferRow store id (fun o => { o with state := st })

/-- `PostgresOfferRepository.get_expired_offers`: rows whose state is ACTIVE
(only ACTIVE — PAUSED rows are not selected) and whose
`pickup_end_time <= utcnow()`. -/
def get_expired_offers (store : OfferStore) (now : Nat) : List Offer :=
  store.filter (fun o => o.state == .ACTIVE && decide (o.pickup_end_time ≤ now))

end PostgresOfferRepository

/-- Reservation row / domain entity, from src/models/reservation.py
(`Reservation`) and the matching columns of `ReservationTable`. -/
structure Reservation where
  id : Nat
  order_id : String
  offer_id : Nat
  customer_id : Int
  quantity : Int
  unit_price : Int
  total_price : Int
  currency : String
  status : ReservationStatus
  pickup_start_time : Nat
  pickup_end_time : Nat
  cancellation_reason : Option String
  cancelled_at : Option Nat
deriving DecidableEq

/-- A reservations table is a list of rows. -/
abbrev ReservationStore := List Reservation

/-- `SELECT ... WHERE ReservationTable.id == id` returning at most one row. -/
def getReservationRow (store : ReservationStore) (id : Nat) : Option Reservation :=
  store.find? (fun r => r.id == id)

/-- `ReservationInput`, from src/models/reservation.py. -/
structure ReservationInput where
  offer_id : Nat
  customer_id : Int
  quantity : Int
  unit_price : Int
  total_price : Int
  currency : String
  pickup_start_time : Nat
  pickup_end_time : Nat
deriving DecidableEq

/-- The pydantic field constraints of `ReservationInput`: `customer_id > 0`,
`quantity > 0`, `unit_price >= 0`, `total_price >= 0`.  Constructing a
`ReservationInput` that violates them raises a ValidationError. -/
def ReservationInput.validates (i : ReservationInput) : Bool :=
  decide (0 < i.customer_id) && decide (0 < i.quantity) &&
    decide (0 ≤ i.unit_price) && decide (0 ≤ i.total_price)

namespace PostgresReservationRepository

/-- `PostgresReservationRepository.create`: insert a new CONFIRMED row built
from the input.  The generated primary key and `order_id`
(`secrets.token_hex`-based, nondeterministic) are passed in as parameters. -/
def create (store : ReservationStore) (input : ReservationInput)
    (newId : Nat) (orderId : String) : Reservation × ReservationStore :=
  let r : Reservation :=
    { id := newId
      order_id := orderId
      offer_id := input.offer_id
      customer_id := input.customer_id
      quantity := input.quantity
      unit_price := input.unit_price
      total_price := input.total_price
      currency := input.currency
      status := .CONFIRMED
      pickup_start_time := input.pickup_start_time
      pickup_end_time := input.pickup_end_time
      cancellation_reason := none
      cancelled_at := none }
  (r, store ++ [r])

/-- `PostgresReservationRepository.cancel`: load the row (missing → raise),
raise if status is not CONFIRMED, otherwise set CANCELLED with the reason and
`cancelled_at = utcnow()`.  Raised ValueErrors are the `.error` branch.  The
method touches only the reservations table — it never mutates the offer. -/
def cancel (store : ReservationStore) (reservation_id : Nat) (reason : String)
    (now : Nat) : Except String (Reservation × ReservationStore) :=
  match getReservationRow store reservation_id with
  | none => .error "Reservation not found"
  | some r =>
    if r.status == .CONFIRMED then
      let r1 := { r with status := .CANCELLED,
                         cancellation_reason := some reason,
                         cancelled_at := some now }
      .ok (r1, store.map (fun x => if x.id == reservation_id then r1 else x))
    else
      .error "Cannot cancel reservation with this status"

end PostgresReservationRepository

/-- `RedisLockHelper`, from src/storage/redis_locks.py; the TTL defaults to 5
seconds. -/
structure RedisLockHelper where
  ttl_seconds : Nat := 5
deriving DecidableEq

/-- The Redis keys currently set, with the TTL each was set with. -/
abbrev LockStore := List (String × Nat)

/-- The per-offer lock key: `tmkt:lock:offer:(offer_id)`. -/
def lockKey (offer_id : Nat) : String :=
  "tmkt:lock:offer:" ++ toString offer_id

namespace RedisLockHelper

/-- The `SET key "1" EX ttl NX` step of `acquire_offer_lock`: if the key
already exists the set fails and nothing is written; otherwise the key is set
with the helper's TTL. -/
def acquireStep (h : RedisLockHelper) (locks : LockStore) (offer_id : Nat) :
    Bool × LockStore :=
  if (locks.lookup (lockKey offer_id)).isSome then (false, locks)
  else (true, (lockKey offer_id, h.ttl_seconds) :: locks)

/-- The `finally` clause of `acquire_offer_lock`: `DEL` the key if and only if
this call acquired it. -/
def releaseStep (acquired : Bool) (locks : LockStore) (offer_id : Nat) :
    LockStore :=
  if acquired then locks.filter (fun kv => !(kv.1 == lockKey offer_id)) else locks

/-- `acquire_offer_lock` as the async context manager it is: run the body with
the acquisition result, then run the `finally` clause on every exit path —
also when the body raises (`body` returns an `Except`). -/
def acquire_offer_lock {ε α : Type} (h : RedisLockHelper) (locks : LockStore)
    (offer_id : Nat) (body : Bool → Except ε α) : Except ε α × LockStore :=
  (body (h.acquireStep locks offer_id).1,
    releaseStep (h.acquireStep locks offer_id).1 (h.acquireStep locks offer_id).2
      offer_id)

end RedisLockHelper

/-- The distinct failure exits of
`ReservationFlowService.create_reservation`, one per return branch of the
source: the lock-busy message, offer not found, the
"Offer is no longer available" availability failure (state, zero quantity or
expiration), the "Only N units available" quantity failure, a failed store
decrement, a reservation-persistence failure (the `except` branch), and the
pydantic ValidationError raised when `ReservationInput` is constructed with
invalid values (this one propagates out of the method uncaught). -/
inductive CreateError where
  | lockUnavailable
  | offerNotFound
  | offerNotAvailable
  | insufficientInventory (available : Int)
  | decrementFailed
  | persistFailed
  | inputInvalid
deriving DecidableEq

/-- Result of one `create_reservation` call: the returned order id or the
failure, plus the post-call stores.  The lock store is returned after the
scoped release. -/
structure CreateOutcome where
  result : Except CreateError String
  offers : OfferStore
  reservations : ReservationStore
  locks : LockStore

/-- `ReservationFlowService.create_reservation`, from
src/services/reservation_flow.py.  Checks in source order: offer lock
(fail-fast when held), offer lookup, `available_for_reservation`
(state/quantity/expiration), `quantity > quantity_remaining`, atomic
decrement, then persistence of the snapshot reservation with
`total_price = quantity * price_per_unit`.  `persistOk = false` drives the
`except` branch of `reservation_repo.create`: the decrement is compensated by
`increment_quantity` before the failure is returned.  A ValidationError from
`ReservationInput` (e.g. non-positive quantity) is raised after the decrement
and outside the try/except, so it is surfaced with no compensation. -/
def create_reservation (h : RedisLockHelper) (locks : LockStore)
    (offers : OfferStore) (reservations : ReservationStore)
    (customer_id : Int) (offer_id : Nat) (quantity : Int) (now : Nat)
    (newResId : Nat) (newOrderId : String) (persistOk : Bool) : CreateOutcome :=
  let acq := h.acquireStep locks offer_id
  let locksEnd := RedisLockHelper.releaseStep acq.1 acq.2 offer_id
  if !acq.1 then
    { result := .error .lockUnavailable, offers := offers,
      reservations := reservations, locks := locksEnd }
  else
    match getOfferRow offers offer_id with
    | none =>
      { result := .error .offerNotFound, offers := offers,
        reservations := reservations, locks := locksEnd }
    | some offer =>
      if !(offer.available_for_reservation now) then
        { result := .error .offerNotAvailable, offers := offers,
          reservations := reservations, locks := locksEnd }
      else if offer.quantity_remaining < quantity then
        { result := .error (.insufficientInventory offer.quantity_remaining),
          offers := offers, reservations := reservations, locks := locksEnd }
      else
        let dec := PostgresOfferRepository.decrement_quantity offers offer_id quantity
        if !dec.1 then
          { result := .error .decrementFailed, offers := dec.2,
            reservations := reservations, locks := locksEnd }
        else
          let input : ReservationInput :=
            { offer_id := offer_id
              customer_id := customer_id
              quantity := quantity
              unit_price := offer.price_per_unit
              total_price := quantity * offer.price_per_unit
              currency := offer.currency
              pickup_start_time := offer.pickup_start_time
              pickup_end_time := offer.pickup_end_time }
          if !input.validates then
            { result := .error .inputInvalid, offers := dec.2,
              reservations := reservations, locks := locksEnd }
          else if persistOk then
            let created := PostgresReservationRepository.create reservations input newResId newOrderId
            { result := .ok created.1.order_id, offers := dec.2,
              reservations := created.2, locks := locksEnd }
          else
            let inc := PostgresOfferRepository.increment_quantity dec.2 offer_id quantity now
            { result := .error .persistFailed, offers := inc.2,
              reservations := reservations, locks := locksEnd }

/-- The distinct exits of `handle_confirm_cancel_reservation`. -/
inductive CancelMsg where
  | reservationNotFound
  | windowClosed
  | cancelFailed
  | success
deriving DecidableEq

/-- Result of one confirmed-cancellation call. -/
structure CancelResult where
  outcome : CancelMsg
  offers : OfferStore
  reservations : ReservationStore

/-- `handle_confirm_cancel_reservation`, from
src/handlers/purchasing/cancel_reservation_handler.py: load the reservation,
re-check `utcnow() < pickup_end_time` against the reservation's own snapshot,
then call `reservation_repo.cancel` (exceptions from it are caught and
reported as a failure).  The handler performs no offer mutation: the offers
table is passed through unchanged on every path. -/
def handle_confirm_cancel_reservation (offers : OfferStore)
    (reservations : ReservationStore) (reservation_id : Nat) (now : Nat) :
    CancelResult :=
  match getReservationRow reservations reservation_id with
  | none => { outcome := .reservationNotFound, offers := offers, reservations := reservations }
  | some r =>
    if decide (r.pickup_end_time ≤ now) then
      { outcome := .windowClosed, offers := offers, reservations := reservations }
    else
      match PostgresReservationRepository.cancel reservations reservation_id
          "Customer requested cancellation" now with
      | .error _ => { outcome := .cancelFailed, offers := offers, reservations := reservations }
      | .ok res => { outcome := .success, offers := offers, reservations := res.2 }

namespace ExpirationJob

/-- One iteration of the per-offer loop of `ExpirationJob.run`.  The body's
first statement is `await self.offer_repo.update_status(offer.id, EXPIRED)`,
but `PostgresOfferRepository` — the repository the job is constructed with —
has no `update_status` method (its state update is named `update_state`), so
the attribute lookup raises AttributeError before `expired_count += 1` is
reached; the per-offer except catches it, increments `failed_count`, and
leaves the offers table untouched.  The accumulator is
((expired_count, failed_count), offers table). -/
def runStep (acc : (Nat × Nat) × OfferStore) (_ : Offer) :
    (Nat × Nat) × OfferStore :=
  ((acc.1.1, acc.1.2 + 1), acc.2)

/-- `ExpirationJob.run`, from src/services/expiration_job.py: the whole sweep
is wrapped in a try/except that returns counts of 0 if the
`get_expired_offers` query raises (`queryFails`); otherwise the per-offer
loop runs `runStep` over each selected offer — every iteration failing at the
missing `update_status`, so no offer is ever transitioned — and the run
returns the dictionary of counts (expired, failed).  The run itself never
raises. -/
def run (offers : OfferStore) (now : Nat) (queryFails : Bool) :
    (Nat × Nat) × OfferStore :=
  if queryFails then ((0, 0), offers)
  else
    (PostgresOfferRepository.get_expired_offers offers now).foldl
      runStep ((0, 0), offers)

end ExpirationJob

namespace SoldOutSvc

/-- An offer item as the sold-out transition service reads it
(`item.quantity` for each element of `offer.items`). -/
structure Item where
  name : String
  quantity : Int
deriving DecidableEq

/-- The offer shape that src/services/sold_out_transition.py operates on (and
that its unit tests construct): a `status` attribute and a list of `items`
whose quantities make up the offer's total remaining inventory. -/
structure Offer where
  id : Nat
  title : String
  status : OfferStatus
  items : List Item
deriving DecidableEq

/-- The service's offer store. -/
abbrev Store := List Offer

/-- `offer_repo.get_by_id` as the service calls it. -/
def get_by_id (store : Store) (id : Nat) : Option Offer :=
  store.find? (fun o => o.id == id)

/-- `offer_repo.update_status` as the service calls it: set the offer's
status. -/
def update_status (store : Store) (id : Nat) (st : OfferStatus) : Store :=
  store.map (fun o => if o.id == id then { o with status := st } else o)

/-- `sum(item.quantity for item in offer.items)`. -/
def total_remaining (o : Offer) : Int :=
  (o.items.map (fun i => i.quantity)).sum

/-- `SoldOutTransitionService.check_and_transition_to_sold_out`, from
src/services/sold_out_transition.py: missing offer → False; status not in
[ACTIVE, PAUSED] → no-op False; total remaining > 0 → False; otherwise update
the status to SOLD_OUT and report True. -/
def check_and_transition_to_sold_out (store : Store) (offer_id : Nat) :
    Bool × Store :=
  match get_by_id store offer_id with
  | none => (false, store)
  | some offer =>
    if !(offer.status == .ACTIVE || offer.status == .PAUSED) then (false, store)
    else if decide (0 < total_remaining offer) then (false, store)
    else (true, update_status store offer_id .SOLD_OUT)

/-- `SoldOutTransitionService.force_sold_out`, from
src/services/sold_out_transition.py, under the `OfferStatus` enum of
src/models/offer.py: missing offer → False; already SOLD_OUT → idempotent
True with no update.  Every other status falls to the rejection check
`offer.status in [OfferStatus.EXPIRED, OfferStatus.DRAFT]`, whose evaluation
raises AttributeError — the enum defines no DRAFT member — so the service's
except clause logs the error and returns False with no status update: the
`update_status(offer_id, SOLD_OUT)` success path is unreachable. -/
def force_sold_out (store : Store) (offer_id : Nat) : Bool × Store :=
  match get_by_id store offer_id with
  | none => (false, store)
  | some offer =>
    if offer.status == .SOLD_OUT then (true, store)
    else (false, store)

end SoldOutSvc

/-- One interactive operation against a fixed offer, for reasoning about
sequences of reservation and cancellation calls.  A create carries the
caller's request plus the nondeterministic inputs of the call (generated row
id and order id, and whether reservation persistence succeeds); a cancel
carries the reservation id being cancelled. -/
inductive Op where
  | create (customer_id : Int) (quantity : Int) (newResId : Nat)
      (newOrderId : String) (persistOk : Bool)
  | cancel (reservation_id : Nat)
deriving DecidableEq

/-- Combined system state: both tables and the Redis lock keys. -/
structure SysState where
  offers : OfferStore
  reservations : ReservationStore
  locks : LockStore
deriving DecidableEq

/-- Apply one operation on the offer `offer_id` at time `now`:
`create_reservation` for a create, `handle_confirm_cancel_reservation` for a
cancel. -/
def stepOp (h : RedisLockHelper) (now : Nat) (offer_id : Nat) (s : SysState) :
    Op → SysState
  | .create c q rid oid ok =>
    let out := create_reservation h s.locks s.offers s.reservations c offer_id q now rid oid ok
    { offers := out.offers, reservations := out.reservations, locks := out.locks }
  | .cancel rid =>
    let out := handle_confirm_cancel_reservation s.offers s.reservations rid now
    { offers := out.offers, reservations := out.reservations, locks := s.locks }

/-- Apply a sequence of operations in order. -/
def runOps (h : RedisLockHelper) (now : Nat) (offer_id : Nat) (s : SysState)
    (ops : List Op) : SysState :=
  ops.foldl (stepOp h now offer_id) s

/-- Total quantity across CONFIRMED reservations referencing the offer. -/
def confirmedQuantity (reservations : ReservationStore) (offer_id : Nat) : Int :=
  ((reservations.filter
      (fun r => r.offer_id == offer_id && r.status == .CONFIRMED)).map
    (fun r => r.quantity)).sum

/-- The conservation quantity of the spec:
`quantity_remaining + Σ(quantity of CONFIRMED reservations)` for the offer
(`none` when the offer row is missing). -/
def conservedSum (s : SysState) (offer_id : Nat) : Option Int :=
  (getOfferRow s.offers offer_id).map
    (fun o => o.quantity_remaining + confirmedQuantity s.reservations offer_id)

/-- Relation maintained by `create_reservation` calls against the offer
published as `offer0`: the offer row is still present, its price and pickup
window are those fixed at publish time, its remainder is nonnegative, and
remainder plus confirmed reserved quantity equals the constant `base`. -/
def CreateInvariant (offer_id : Nat) (offer0 : Offer) (base : Int)
    (s : SysState) : Prop :=
  ∃ o, getOfferRow s.offers offer_id = some o ∧
    o.price_per_unit = offer0.price_per_unit ∧
    o.pickup_end_time = offer0.pickup_end_time ∧
    0 ≤ o.quantity_remaining ∧
    o.quantity_remaining + confirmedQuantity s.reservations offer_id = base

/-- A fresh ACTIVE offer with 5 of 5 units, price 5, pickup window 0..100. -/
def offerA : Offer :=
  { id := 0, quantity_total := 5, quantity_remaining := 5, price_per_unit := 5,
    currency := "EUR", pickup_start_time := 0, pickup_end_time := 100,
    state := .ACTIVE }

/-- Initial system state holding just `offerA`. -/
def stateA : SysState := { offers := [offerA], reservations := [], locks := [] }

/-- Reserve 2 units, then cancel that reservation. -/
def opsReserveThenCancel : List Op :=
  [.create 1 2 1 "RES-AAAA1111" true, .cancel 1]

/-- A SOLD_OUT offer with 0 of 5 units remaining and pickup window 0..100. -/
def offerSoldOut : Offer :=
  { id := 0, quantity_total := 5, quantity_remaining := 0, price_per_unit := 5,
    currency := "EUR", pickup_start_time := 0, pickup_end_time := 100,
    state := .SOLD_OUT }

/-- A CONFIRMED reservation of 2 units of `offerSoldOut`, snapshotted pickup
window 0..100. -/
def resConfirmed : Reservation :=
  { id := 1, order_id := "RES-BBBB2222", offer_id := 0, customer_id := 1,
    quantity := 2, unit_price := 5, total_price := 10, currency := "EUR",
    status := .CONFIRMED, pickup_start_time := 0, pickup_end_time := 100,
    cancellation_reason := none, cancelled_at := none }

/-- A PAUSED offer whose pickup window (0..5) has already closed. -/
def offerPausedExpired : Offer :=
  { id := 7, quantity_total := 4, quantity_remaining := 4, price_per_unit := 5,
    currency := "EUR", pickup_start_time := 0, pickup_end_time := 5,
    state := .PAUSED }

/-- An ACTIVE offer whose pickup window (0..5) has already closed. -/
def offerActiveExpired : Offer :=
  { offerA with pickup_end_time := 5 }

/-- An EXPIRED_EARLY offer of the sold-out service with inventory left. -/
def offerEndedEarly : SoldOutSvc.Offer :=
  { id := 3, title := "Ended early", status := .EXPIRED_EARLY,
    items := [{ name := "Bagel", quantity := 3 }] }

/-- An ACTIVE offer row with 4 of 5 units remaining (used to drive
`increment_quantity` past `quantity_total`). -/
def offerNearFull : Offer :=
  { id := 2, quantity_total := 5, quantity_remaining := 4, price_per_unit := 5,
    currency := "EUR", pickup_start_time := 0, pickup_end_time := 100,
    state := .ACTIVE }

/-- A PAUSED offer of the sold-out service with all items depleted. -/
def soldOutDepleted : SoldOutSvc.Offer :=
  { id := 4, title := "Depleted", status := .PAUSED,
    items := [{ name := "Bread", quantity := 0 }] }

/-- An ACTIVE offer of the sold-out service with stock remaining. -/
def soldOutStocked : SoldOutSvc.Offer :=
  { id := 5, title := "Stocked", status := .ACTIVE,
    items := [{ name := "Roll", quantity := 2 }] }

/-- An ACTIVE offer of the sold-out service with stock, for forcing. -/
def forceStocked : SoldOutSvc.Offer :=
  { id := 6, title := "Pies", status := .ACTIVE,
    items := [{ name := "Pie", quantity := 2 }] }

/-- An already-SOLD_OUT offer of the sold-out service. -/
def forceAlreadySold : SoldOutSvc.Offer :=
  { id := 8, title := "Gone", status := .SOLD_OUT, items := [] }

/-- An EXPIRED offer of the sold-out service. -/
def forceExpired : SoldOutSvc.Offer :=
  { id := 9, title := "Past", status := .EXPIRED, items := [] }

theorem find?_map_update {α : Type} (idOf : α → Nat) (l : List α) (i : Nat)
    (f : α → α) (hf : ∀ x, idOf (f x) = idOf x) :
    (l.map (fun x => if idOf x == i then f x else x)).find?
        (fun x => idOf x == i) =
      (l.find? (fun x => idOf x == i)).map f := by
  induction l with
  | nil => rfl
  | cons a l ih =>
    by_cases h : idOf a = i
    · have hb : (idOf a == i) = true := by simpa using h
      simp only [List.map_cons, hb, if_true]
      rw [List.find?_cons_of_pos (p := fun x => idOf x == i) _
          (by simpa [hf] using h),
        List.find?_cons_of_pos (p := fun x => idOf x == i) _ hb]
      rfl
    · have hb : (idOf a == i) = false := by simpa using h
      simp only [List.map_cons, hb, Bool.false_eq_true, if_false]
      rw [List.find?_cons_of_neg (p := fun x => idOf x == i) _ (by simp [hb]),
        List.find?_cons_of_neg (p := fun x => idOf x == i) _ (by simp [hb]), ih]

theorem find?_map_update_other {α : Type} (idOf : α → Nat) (l : List α)
    (i j : Nat) (f : α → α) (hf : ∀ x, idOf (f x) = idOf x) (hij : j ≠ i) :
    (l.map (fun x => if idOf x == i then f x else x)).find?
        (fun x => idOf x == j) =
      l.find? (fun x => idOf x == j) := by
  induction l with
  | nil => rfl
  | cons a l ih =>
    by_cases h : idOf a = j
    · have hb : (idOf a == j) = true := by simpa using h
      have hbi : (idOf a == i) = false := by
        simp only [beq_eq_false_iff_ne, ne_eq]
        exact fun hc => hij (h ▸ hc.symm ▸ rfl)
      simp only [List.map_cons, hbi, Bool.false_eq_true, if_false]
      rw [List.find?_cons_of_pos (p := fun x => idOf x == j) _ hb,
        List.find?_cons_of_pos (p := fun x => idOf x == j) _ hb]
    · have hb : (idOf a == j) = false := by simpa using h
      by_cases hi : idOf a = i
      · have hbi : (idOf a == i) = true := by simpa using hi
        simp only [List.map_cons, hbi, if_true]
        rw [List.find?_cons_of_neg (p := fun x => idOf x == j) _
            (by simp [hf, h]),
          List.find?_cons_of_neg (p := fun x => idOf x == j) _ (by simp [hb]),
          ih]
      · have hbi : (idOf a == i) = false := by simpa using hi
        simp only [List.map_cons, hbi, Bool.false_eq_true, if_false]
        rw [List.find?_cons_of_neg (p := fun x => idOf x == j) _ (by simp [hb]),
          List.find?_cons_of_neg (p := fun x => idOf x == j) _ (by simp [hb]),
          ih]

theorem getOfferRow_update_self (store : OfferStore) (i : Nat)
    (f : Offer → Offer) (hf : ∀ o, (f o).id = o.id) :
    getOfferRow (updateOfferRow store i f) i = (getOfferRow store i).map f := by
  unfold getOfferRow updateOfferRow
  exact find?_map_update (fun o : Offer => o.id) store i f hf

theorem getOfferRow_update_other (store : OfferStore) (i j : Nat)
    (f : Offer → Offer) (hf : ∀ o, (f o).id = o.id) (hij : j ≠ i) :
    getOfferRow (updateOfferRow store i f) j = getOfferRow store j := by
  unfold getOfferRow updateOfferRow
  exact find?_map_update_other (fun o : Offer => o.id) store i j f hf hij

theorem confirmedQuantity_append (res : ReservationStore) (r : Reservation)
    (i : Nat) :
    confirmedQuantity (res ++ [r]) i =
      confirmedQuantity res i +
        (if r.offer_id == i && r.status == ReservationStatus.CONFIRMED then
          r.quantity else 0) := by
  unfold confirmedQuantity
  rw [List.filter_append]
  by_cases h : (r.offer_id == i && r.status == ReservationStatus.CONFIRMED) = true
  · simp [List.filter_cons, h]
  · simp [List.filter_cons, h]

theorem expiration_failed_counts (l : List Offer) :
    ∀ (e f : Nat) (st : OfferStore),
      l.foldl ExpirationJob.runStep ((e, f), st) = ((e, f + l.length), st) := by
  induction l with
  | nil => intro e f st; simp
  | cons a l ih =>
    intro e f st
    simp only [List.foldl_cons, ExpirationJob.runStep, List.length_cons]
    rw [ih]
    have he : f + 1 + l.length = f + (l.length + 1) := by omega
    rw [he]

theorem filter_ne_of_lookup_none (locks : LockStore) (k : String)
    (h : locks.lookup k = none) :
    locks.filter (fun kv => !(kv.1 == k)) = locks := by
  induction locks with
  | nil => rfl
  | cons a l ih =>
    obtain ⟨k1, v1⟩ := a
    simp only [List.lookup] at h
    cases hk : k == k1 with
    | true => rw [hk] at h; cases h
    | false =>
      rw [hk] at h
      have hk1 : (k1 == k) = false := by
        simp only [beq_eq_false_iff_ne, ne_eq] at hk ⊢
        exact fun he => hk he.symm
      simp only [List.filter, hk1, Bool.not_false]
      rw [ih h]

theorem get_by_id_update_status_self (store : SoldOutSvc.Store) (i : Nat)
    (st : OfferStatus) :
    SoldOutSvc.get_by_id (SoldOutSvc.update_status store i st) i =
      (SoldOutSvc.get_by_id store i).map (fun o => { o with status := st }) := by
  unfold SoldOutSvc.get_by_id SoldOutSvc.update_status
  exact find?_map_update (fun o : SoldOutSvc.Offer => o.id) store i _ (fun _ => rfl)

/-- Claim C9: `acquire_offer_lock` yields acquired = false, without
overwriting the existing key, whenever the lock key for the offer already
exists; on every exit path (normal body result or body exception, since the
deletion is in the `finally` clause) it deletes the lock key if and only if
this call acquired it, so the lock store is restored exactly; an absent key is
set together with the helper's configured TTL, which defaults to 5 seconds. -/
theorem C9_acquire_offer_lock_spec {ε α : Type} (h : RedisLockHelper)
    (locks : LockStore) (i : Nat) (body : Bool → Except ε α) :
    ((locks.lookup (lockKey i)).isSome = true →
      h.acquireStep locks i = (false, locks) ∧
      RedisLockHelper.acquire_offer_lock h locks i body = (body false, locks)) ∧
    ((locks.lookup (lockKey i)) = none →
      h.acquireStep locks i = (true, (lockKey i, h.ttl_seconds) :: locks) ∧
      RedisLockHelper.acquire_offer_lock h locks i body = (body true, locks)) ∧
    ({ } : RedisLockHelper).ttl_seconds = 5 := by
  refine ⟨?_, ?_, rfl⟩
  · intro hsome
    have hstep : h.acquireStep locks i = (false, locks) := by
      unfold RedisLockHelper.acquireStep
      rw [if_pos hsome]
    refine ⟨hstep, ?_⟩
    unfold RedisLockHelper.acquire_offer_lock
    rw [hstep]
    show (body false, RedisLockHelper.releaseStep false locks i) = (body false, locks)
    unfold RedisLockHelper.releaseStep
    rw [if_neg (by decide)]
  · intro hnone
    have hstep : h.acquireStep locks i = (true, (lockKey i, h.ttl_seconds) :: locks) := by
      unfold RedisLockHelper.acquireStep
      rw [if_neg (by rw [hnone]; simp)]
    refine ⟨hstep, ?_⟩
    unfold RedisLockHelper.acquire_offer_lock
    rw [hstep]
    show (body true,
      RedisLockHelper.releaseStep true ((lockKey i, h.ttl_seconds) :: locks) i) =
      (body true, locks)
    unfold RedisLockHelper.releaseStep
    rw [if_pos rfl, List.filter_cons]
    simp only [beq_self_eq_true, Bool.not_true, Bool.false_eq_true, if_false]
    rw [filter_ne_of_lookup_none locks (lockKey i) hnone]

/-- Claim C9 witness: with the key already held acquisition yields false and
the store is untouched; with the key absent the scoped call acquires, runs the
body with true, and restores the store; the default TTL is 5. -/
theorem C9_witness :
    (RedisLockHelper.acquireStep { } [(lockKey 1, 5)] 1 = (false, [(lockKey 1, 5)]) ∧
      RedisLockHelper.acquire_offer_lock { } [(lockKey 1, 5)] 1
          (fun b => (.ok b : Except Unit Bool)) = (.ok false, [(lockKey 1, 5)])) ∧
    (RedisLockHelper.acquireStep { } ([] : LockStore) 1 = (true, [(lockKey 1, 5)]) ∧
      RedisLockHelper.acquire_offer_lock { } ([] : LockStore) 1
          (fun _ => (.error () : Except Unit Bool)) = (.error (), [])) := by
  constructor
  · exact (C9_acquire_offer_lock_spec { } [(lockKey 1, 5)] 1
      (fun b => (.ok b : Except Unit Bool))).1 (by decide)
  · exact (C9_acquire_offer_lock_spec { } ([] : LockStore) 1
      (fun _ => (.error () : Except Unit Bool))).2.1 rfl

/-- Claim C10: for every existing offer row and every quantity n,
`increment_quantity` returns True and sets quantity_remaining to its old value
plus n, with no upper-bound check against quantity_total; in particular on the
concrete row `offerNearFull` (4 of 5 remaining) an increment of 3 stores
remaining = 7 > total = 5, and the domain model's quantity validator rejects
that row when it is next converted by `_to_domain_model`. -/
theorem C10_increment_quantity_unbounded (store : OfferStore) (i : Nat)
    (n : Int) (now : Nat) (o : Offer) (hfind : getOfferRow store i = some o) :
    ((PostgresOfferRepository.increment_quantity store i n now).1 = true ∧
      (getOfferRow (PostgresOfferRepository.increment_quantity store i n now).2 i).map
          (fun r => r.quantity_remaining) = some (o.quantity_remaining + n)) ∧
    ((PostgresOfferRepository.increment_quantity [offerNearFull] 2 3 10).1 = true ∧
      (getOfferRow (PostgresOfferRepository.increment_quantity [offerNearFull] 2 3 10).2 2).map
          (fun r => (r.quantity_remaining, r.quantity_total)) = some (7, 5) ∧
      to_domain_model { offerNearFull with quantity_remaining := 7 } = none) := by
  constructor
  · constructor
    · unfold PostgresOfferRepository.increment_quantity
      simp only [hfind]
    · unfold PostgresOfferRepository.increment_quantity
      simp only [hfind]
      rw [getOfferRow_update_self, hfind]
      all_goals first | rfl | exact fun _ => rfl
  · exact ⟨by decide, by decide, by decide⟩

/-- Claim C10 witness: the general part applied to the one-row store holding
`offerNearFull`. -/
theorem C10_witness :
    (PostgresOfferRepository.increment_quantity [offerNearFull] 2 3 10).1 = true ∧
    (getOfferRow (PostgresOfferRepository.increment_quantity [offerNearFull] 2 3 10).2 2).map
        (fun r => r.quantity_remaining) = some (offerNearFull.quantity_remaining + 3) :=
  (C10_increment_quantity_unbounded [offerNearFull] 2 3 10 offerNearFull rfl).1

/-- Claim C6: on an existing offer, `check_and_transition_to_sold_out` is a
no-op reporting false when the status is outside {ACTIVE, PAUSED}; with status
in {ACTIVE, PAUSED} and total remaining quantity 0 it sets the status to
SOLD_OUT and reports true; with positive total remaining it reports false and
changes nothing. -/
theorem C6_check_and_transition_spec (store : SoldOutSvc.Store) (i : Nat)
    (o : SoldOutSvc.Offer) (hfind : SoldOutSvc.get_by_id store i = some o) :
    (¬(o.status = .ACTIVE ∨ o.status = .PAUSED) →
      SoldOutSvc.check_and_transition_to_sold_out store i = (false, store)) ∧
    ((o.status = .ACTIVE ∨ o.status = .PAUSED) →
      SoldOutSvc.total_remaining o = 0 →
      (SoldOutSvc.check_and_transition_to_sold_out store i).1 = true ∧
      SoldOutSvc.get_by_id
          (SoldOutSvc.check_and_transition_to_sold_out store i).2 i =
        some { o with status := .SOLD_OUT }) ∧
    ((o.status = .ACTIVE ∨ o.status = .PAUSED) →
      0 < SoldOutSvc.total_remaining o →
      SoldOutSvc.check_and_transition_to_sold_out store i = (false, store)) := by
  refine ⟨?_, ?_, ?_⟩
  · intro hno
    have hb : (o.status == OfferStatus.ACTIVE || o.status == OfferStatus.PAUSED) = false := by
      simp only [Bool.or_eq_false_iff, beq_eq_false_iff_ne, ne_eq]
      exact ⟨fun he => hno (Or.inl he), fun he => hno (Or.inr he)⟩
    unfold SoldOutSvc.check_and_transition_to_sold_out
    simp only [hfind, hb, Bool.not_false, if_true]
  · intro hyes hzero
    have hb : (o.status == OfferStatus.ACTIVE || o.status == OfferStatus.PAUSED) = true := by
      rcases hyes with he | he <;> simp [he]
    have hnpos : ¬(0 < SoldOutSvc.total_remaining o) := by omega
    unfold SoldOutSvc.check_and_transition_to_sold_out
    simp only [hfind, hb, Bool.not_true, Bool.false_eq_true, if_false,
      hnpos, decide_eq_true_eq, if_true, decide_eq_false hnpos]
    constructor
    · trivial
    · rw [get_by_id_update_status_self, hfind]
      rfl
  · intro hyes hpos
    have hb : (o.status == OfferStatus.ACTIVE || o.status == OfferStatus.PAUSED) = true := by
      rcases hyes with he | he <;> simp [he]
    unfold SoldOutSvc.check_and_transition_to_sold_out
    simp only [hfind, hb, Bool.not_true, Bool.false_eq_true, if_false,
      decide_eq_true hpos, if_true]

/-- Claim C6 witness: a PAUSED offer whose single item has 0 units left is
transitioned to SOLD_OUT (reported true), and an ACTIVE offer with stock is
left alone (reported false). -/
theorem C6_witness :
    ((SoldOutSvc.check_and_transition_to_sold_out [soldOutDepleted] 4).1 = true ∧
      SoldOutSvc.get_by_id
          (SoldOutSvc.check_and_transition_to_sold_out [soldOutDepleted] 4).2 4 =
        some { soldOutDepleted with status := .SOLD_OUT }) ∧
    SoldOutSvc.check_and_transition_to_sold_out [soldOutStocked] 5 =
      (false, [soldOutStocked]) := by
  constructor
  · exact (C6_check_and_transition_spec [soldOutDepleted] 4 soldOutDepleted
      rfl).2.1 (Or.inr rfl) (by decide)
  · exact (C6_check_and_transition_spec [soldOutStocked] 5 soldOutStocked
      rfl).2.2 (Or.inl rfl) (by decide)

/-- Claim C7 (violated by the code): under the `OfferStatus` enum of
src/models/offer.py, `force_sold_out` reports success only for an
already-SOLD_OUT offer (the idempotent no-op); every other status — including
ACTIVE and PAUSED, which the claim says succeed by moving the offer to
SOLD_OUT — reaches the rejection check referencing the nonexistent
`OfferStatus.DRAFT`, raises AttributeError, and returns False with no status
update.  Concretely: the stocked ACTIVE offer `forceStocked` is rejected with
the store unchanged; the already-SOLD_OUT and EXPIRED offers behave as the
claim says; and the EXPIRED_EARLY offer is rejected, also as the claim
says. -/
theorem C7_force_sold_out_rejects_active :
    forceStocked.status = .ACTIVE ∧
    SoldOutSvc.force_sold_out [forceStocked] 6 = (false, [forceStocked]) ∧
    SoldOutSvc.force_sold_out [forceAlreadySold] 8 = (true, [forceAlreadySold]) ∧
    SoldOutSvc.force_sold_out [forceExpired] 9 = (false, [forceExpired]) ∧
    offerEndedEarly.status = .EXPIRED_EARLY ∧
    SoldOutSvc.force_sold_out [offerEndedEarly] 3 = (false, [offerEndedEarly]) := by
  exact ⟨rfl, rfl, rfl, rfl, rfl, rfl⟩

/-- Claim C5 (amended): a run of the expiration sweep selects exactly the
offers whose state is ACTIVE (PAUSED offers are not selected) and whose
pickup_end_time ≤ now; every per-offer transition attempt fails — the job
calls `offer_repo.update_status`, which `PostgresOfferRepository` does not
provide — and is caught and counted without aborting the sweep, so the run
transitions nothing, returns the counts (expired = 0, failed = number of
selected offers) and leaves the store unchanged; the run never raises, a
failing selection query being caught and reported as counts (0, 0). -/
theorem C5_expiration_sweep_spec (offers : OfferStore) (now : Nat) :
    (∀ o : Offer, o ∈ PostgresOfferRepository.get_expired_offers offers now ↔
      (o ∈ offers ∧ o.state = .ACTIVE ∧ o.pickup_end_time ≤ now)) ∧
    ExpirationJob.run offers now false =
      ((0, (PostgresOfferRepository.get_expired_offers offers now).length),
        offers) ∧
    ExpirationJob.run offers now true = ((0, 0), offers) := by
  refine ⟨?_, ?_, rfl⟩
  · intro o
    unfold PostgresOfferRepository.get_expired_offers
    rw [List.mem_filter]
    simp [Bool.and_eq_true, beq_iff_eq, decide_eq_true_eq]
  · unfold ExpirationJob.run
    rw [if_neg (by simp)]
    simpa using expiration_failed_counts _ 0 0 offers

/-- Claim C5 counterexample: at time 10 on the store holding
`offerActiveExpired` (ACTIVE, window closed at 5) and `offerPausedExpired`
(PAUSED, window closed at 5), the run returns counts (0, 1) with the store
unchanged: the PAUSED offer is not selected at all, and the selected ACTIVE
offer is counted as failed and keeps state ACTIVE — whereas the claim says
both offers are selected and transitioned to EXPIRED with expired = 2. -/
theorem C5_counterexample :
    offerActiveExpired.state = .ACTIVE ∧
    offerActiveExpired.pickup_end_time ≤ 10 ∧
    offerPausedExpired.state = .PAUSED ∧
    offerPausedExpired.pickup_end_time ≤ 10 ∧
    ExpirationJob.run [offerActiveExpired, offerPausedExpired] 10 false =
      ((0, 1), [offerActiveExpired, offerPausedExpired]) := by
  exact ⟨rfl, by decide, rfl, by decide, rfl⟩

/-- Claim C5 witness: the amended sweep specification applied at time 10 to
the two-offer store of one expired ACTIVE offer and one expired PAUSED offer:
only the ACTIVE one is selected, the run counts it as failed and transitions
nothing, and a failing query yields counts (0, 0) with the store intact. -/
theorem C5_witness :
    (offerActiveExpired ∈ PostgresOfferRepository.get_expired_offers
        [offerActiveExpired, offerPausedExpired] 10 ↔
      (offerActiveExpired ∈ [offerActiveExpired, offerPausedExpired] ∧
        offerActiveExpired.state = .ACTIVE ∧
        offerActiveExpired.pickup_end_time ≤ 10)) ∧
    ExpirationJob.run [offerActiveExpired, offerPausedExpired] 10 false =
      ((0, 1), [offerActiveExpired, offerPausedExpired]) ∧
    ExpirationJob.run [offerActiveExpired, offerPausedExpired] 10 true =
      ((0, 0), [offerActiveExpired, offerPausedExpired]) := by
  have hmain := C5_expiration_sweep_spec [offerActiveExpired, offerPausedExpired] 10
  exact ⟨hmain.1 offerActiveExpired, hmain.2.1, hmain.2.2⟩

/-- Claim C4: reserving against an offer whose pickup window has closed but
whose quantity_remaining is positive fails — for every requested quantity —
with the error of the `available_for_reservation` check, the branch that
reports expiration ("Offer is no longer available") and that runs before the
quantity-sufficiency check; it does not fail with the insufficient-inventory
error, and the stores are untouched. -/
theorem C4_expiration_precedes_quantity (h : RedisLockHelper)
    (locks : LockStore) (offers : OfferStore) (reservations : ReservationStore)
    (c : Int) (i : Nat) (q : Int) (now : Nat) (rid : Nat) (oid : String)
    (ok : Bool) (o : Offer)
    (hlock : (locks.lookup (lockKey i)).isSome = false)
    (hfind : getOfferRow offers i = some o)
    (hexp : o.pickup_end_time ≤ now)
    (hrem : 0 < o.quantity_remaining) :
    (create_reservation h locks offers reservations c i q now rid oid ok).result =
        .error .offerNotAvailable ∧
    (∀ a : Int, CreateError.offerNotAvailable ≠ CreateError.insufficientInventory a) ∧
    (create_reservation h locks offers reservations c i q now rid oid ok).offers =
        offers ∧
    (create_reservation h locks offers reservations c i q now rid oid ok).reservations =
        reservations := by
  have havail : o.available_for_reservation now = false := by
    unfold Offer.available_for_reservation Offer.is_expired
    simp [hexp]
  have hne : ∀ a : Int,
      CreateError.offerNotAvailable ≠ CreateError.insufficientInventory a := by
    intro a hcon
    cases hcon
  refine ⟨?_, hne, ?_, ?_⟩ <;>
    simp only [create_reservation, RedisLockHelper.acquireStep, hlock,
      Bool.false_eq_true, if_false, Bool.not_true, hfind, havail,
      Bool.not_false, eq_self_iff_true, if_true]

/-- Claim C4 witness: an ACTIVE offer whose window closed at 5, holding 5
units, rejected at time 10 for a request of 99 units with the availability
error, not the insufficient-inventory error. -/
theorem C4_witness :
    (create_reservation { } [] [{ offerA with pickup_end_time := 5 }] [] 1 0 99
        10 1 "RES-CCCC3333" true).result = .error .offerNotAvailable ∧
    (create_reservation { } [] [{ offerA with pickup_end_time := 5 }] [] 1 0 99
        10 1 "RES-CCCC3333" true).offers = [{ offerA with pickup_end_time := 5 }] := by
  have hmain := C4_expiration_precedes_quantity { } [] [{ offerA with pickup_end_time := 5 }]
    [] 1 0 99 10 1 "RES-CCCC3333" true { offerA with pickup_end_time := 5 }
    rfl rfl (by decide) (by decide)
  exact ⟨hmain.1, hmain.2.2.1⟩

theorem decrement_then_increment_remaining (store : OfferStore) (i : Nat)
    (q : Int) (now : Nat) (o : Offer) (hfind : getOfferRow store i = some o)
    (hq : q ≤ o.quantity_remaining) :
    (getOfferRow
        (PostgresOfferRepository.increment_quantity
          (PostgresOfferRepository.decrement_quantity store i q).2 i q now).2 i).map
      (fun r => r.quantity_remaining) = some o.quantity_remaining := by
  have hnlt : ¬(o.quantity_remaining < q) := not_lt.mpr hq
  unfold PostgresOfferRepository.decrement_quantity
  simp only [hfind, hnlt, if_false]
  unfold PostgresOfferRepository.increment_quantity
  rw [getOfferRow_update_self]
  · rw [hfind]
    simp only [Option.map_some']
    rw [getOfferRow_update_self]
    · rw [getOfferRow_update_self]
      · rw [hfind]
        simp only [Option.map_some']
        congr 1
        show o.quantity_remaining - q + q = o.quantity_remaining
        omega
      · exact fun _ => rfl
    · exact fun _ => rfl
  · exact fun _ => rfl

/-- Claim C3: when the lock is free, the offer is reservable, the decrement
succeeds (q ≤ remaining) and reservation persistence then raises,
`create_reservation` compensates by incrementing the offer back by the
requested quantity before returning the failure: quantity_remaining after the
call equals its value before the call, and no reservation row is added. -/
theorem C3_compensating_increment (h : RedisLockHelper) (locks : LockStore)
    (offers : OfferStore) (reservations : ReservationStore) (c : Int) (i : Nat)
    (q : Int) (now : Nat) (rid : Nat) (oid : String) (o : Offer)
    (hlock : (locks.lookup (lockKey i)).isSome = false)
    (hfind : getOfferRow offers i = some o)
    (hstate : o.state = .ACTIVE)
    (hnow : now < o.pickup_end_time)
    (hq : q ≤ o.quantity_remaining)
    (hqpos : 0 < q) (hc : 0 < c) (hprice : 0 ≤ o.price_per_unit) :
    (create_reservation h locks offers reservations c i q now rid oid false).result =
        .error .persistFailed ∧
    (getOfferRow
        (create_reservation h locks offers reservations c i q now rid oid false).offers
        i).map (fun r => r.quantity_remaining) = some o.quantity_remaining ∧
    (create_reservation h locks offers reservations c i q now rid oid false).reservations =
        reservations := by
  have hrem : 0 < o.quantity_remaining := lt_of_lt_of_le hqpos hq
  have havail : o.available_for_reservation now = true := by
    unfold Offer.available_for_reservation Offer.is_expired
    simp [hstate, hrem, not_le.mpr hnow]
  have hnlt : ¬(o.quantity_remaining < q) := not_lt.mpr hq
  have hdec1 : (PostgresOfferRepository.decrement_quantity offers i q).1 = true := by
    unfold PostgresOfferRepository.decrement_quantity
    simp only [hfind, hnlt, if_false]
  have hval : (ReservationInput.validates
      { offer_id := i, customer_id := c, quantity := q,
        unit_price := o.price_per_unit,
        total_price := q * o.price_per_unit,
        currency := o.currency, pickup_start_time := o.pickup_start_time,
        pickup_end_time := o.pickup_end_time }) = true := by
    unfold ReservationInput.validates
    have h1 : (0 : Int) ≤ q * o.price_per_unit :=
      mul_nonneg (le_of_lt hqpos) hprice
    simp [hc, hqpos, hprice, h1]
  refine ⟨?_, ?_, ?_⟩
  · simp only [create_reservation, RedisLockHelper.acquireStep, hlock,
      Bool.false_eq_true, if_false, Bool.not_true, hfind, havail,
      Bool.not_false, eq_self_iff_true, if_true, hdec1, hval, hnlt]
  · simp only [create_reservation, RedisLockHelper.acquireStep, hlock,
      Bool.false_eq_true, if_false, Bool.not_true, hfind, havail,
      Bool.not_false, eq_self_iff_true, if_true, hdec1, hval, hnlt]
    exact decrement_then_increment_remaining offers i q now o hfind hq
  · simp only [create_reservation, RedisLockHelper.acquireStep, hlock,
      Bool.false_eq_true, if_false, Bool.not_true, hfind, havail,
      Bool.not_false, eq_self_iff_true, if_true, hdec1, hval, hnlt]

/-- Claim C3 witness: reserving 2 of 5 units of `offerA` at time 10 with a
failing reservation store returns the persistence failure with
quantity_remaining restored to 5 and no reservation row. -/
theorem C3_witness :
    (create_reservation { } [] [offerA] [] 1 0 2 10 1 "RES-DDDD4444" false).result =
        .error .persistFailed ∧
    (getOfferRow
        (create_reservation { } [] [offerA] [] 1 0 2 10 1 "RES-DDDD4444" false).offers
        0).map (fun r => r.quantity_remaining) = some offerA.quantity_remaining ∧
    (create_reservation { } [] [offerA] [] 1 0 2 10 1 "RES-DDDD4444" false).reservations =
        ([] : ReservationStore) :=
  C3_compensating_increment { } [] [offerA] [] 1 0 2 10 1 "RES-DDDD4444" offerA
    rfl rfl rfl (by decide) (by decide) (by decide) (by decide) (by decide)

/-- Claim C1 (violated by the code): conservation fails after a cancellation.
From `offerA` (5 of 5 units), a successful reservation of 2 units keeps
`quantity_remaining + Σ(quantity of CONFIRMED reservations)` at 5, but the
subsequent successful confirmed cancellation drops the sum to 3: the handler
marks the reservation CANCELLED without ever calling increment_quantity, so
the 2 units are lost. -/
theorem C1_conservation_violated :
    conservedSum stateA 0 = some 5 ∧
    conservedSum (runOps { } 10 0 stateA [Op.create 1 2 1 "RES-AAAA1111" true]) 0 =
      some 5 ∧
    conservedSum (runOps { } 10 0 stateA opsReserveThenCancel) 0 = some 3 ∧
    ((runOps { } 10 0 stateA opsReserveThenCancel).reservations.map
      (fun r => r.status)) = [ReservationStatus.CANCELLED] := by
  refine ⟨rfl, ?_, ?_, ?_⟩ <;> decide

/-- Claim C2 (violated by the code): a successful confirmed cancellation of a
CONFIRMED reservation (2 units, snapshotted window still open at time 10)
against the SOLD_OUT offer `offerSoldOut` leaves the offers table exactly as
it was — quantity_remaining stays 0 and the state stays SOLD_OUT, with no
increment and no reactivation to ACTIVE — while the reservation itself is
marked CANCELLED and success is reported. -/
theorem C2_cancel_never_returns_inventory :
    (handle_confirm_cancel_reservation [offerSoldOut] [resConfirmed] 1 10).outcome =
      CancelMsg.success ∧
    (handle_confirm_cancel_reservation [offerSoldOut] [resConfirmed] 1 10).offers =
      [offerSoldOut] ∧
    offerSoldOut.quantity_remaining = 0 ∧
    offerSoldOut.state = .SOLD_OUT ∧
    resConfirmed.status = .CONFIRMED ∧
    resConfirmed.quantity = 2 ∧
    (10 : Nat) < resConfirmed.pickup_end_time ∧
    ((handle_confirm_cancel_reservation [offerSoldOut] [resConfirmed] 1 10).reservations.map
      (fun r => r.status)) = [ReservationStatus.CANCELLED] := by
  exact ⟨rfl, rfl, rfl, rfl, rfl, rfl, by decide, by decide⟩

theorem decrement_row (store : OfferStore) (i : Nat) (q : Int) (o : Offer)
    (hfind : getOfferRow store i = some o)
    (hnlt : ¬(o.quantity_remaining < q)) :
    ∃ r : Offer,
      getOfferRow (PostgresOfferRepository.decrement_quantity store i q).2 i =
        some r ∧
      r.quantity_remaining = o.quantity_remaining - q ∧
      r.price_per_unit = o.price_per_unit ∧
      r.pickup_end_time = o.pickup_end_time := by
  unfold PostgresOfferRepository.decrement_quantity
  simp only [hfind, hnlt, if_false]
  rw [getOfferRow_update_self]
  · rw [hfind]
    simp only [Option.map_some']
    exact ⟨_, rfl, rfl, rfl, rfl⟩
  · exact fun _ => rfl

theorem decrement_then_increment_row (store : OfferStore) (i : Nat) (q : Int)
    (now : Nat) (o : Offer) (hfind : getOfferRow store i = some o)
    (hnlt : ¬(o.quantity_remaining < q)) :
    ∃ r : Offer,
      getOfferRow
          (PostgresOfferRepository.increment_quantity
            (PostgresOfferRepository.decrement_quantity store i q).2 i q now).2
          i = some r ∧
      r.quantity_remaining = o.quantity_remaining ∧
      r.price_per_unit = o.price_per_unit ∧
      r.pickup_end_time = o.pickup_end_time := by
  unfold PostgresOfferRepository.decrement_quantity
  simp only [hfind, hnlt, if_false]
  unfold PostgresOfferRepository.increment_quantity
  rw [getOfferRow_update_self]
  · rw [hfind]
    simp only [Option.map_some']
    rw [getOfferRow_update_self]
    · rw [getOfferRow_update_self]
      · rw [hfind]
        simp only [Option.map_some']
        refine ⟨_, rfl, ?_, rfl, rfl⟩
        show o.quantity_remaining - q + q = o.quantity_remaining
        omega
      · exact fun _ => rfl
    · exact fun _ => rfl
  · exact fun _ => rfl

theorem createInvariant_step (h : RedisLockHelper) (now offer_id : Nat)
    (offer0 : Offer) (base : Int) (s : SysState) (c q : Int) (rid : Nat)
    (oid : String) (ok : Bool) (hq : 0 < q) (hc : 0 < c)
    (hprice : 0 ≤ offer0.price_per_unit)
    (hinv : CreateInvariant offer_id offer0 base s) :
    CreateInvariant offer_id offer0 base
      (stepOp h now offer_id s (Op.create c q rid oid ok)) := by
  obtain ⟨o, hfind, hpr, hpe, hnn, hcons⟩ := hinv
  simp only [stepOp]
  by_cases hb1 : (s.locks.lookup (lockKey offer_id)).isSome = true
  · simp only [create_reservation, RedisLockHelper.acquireStep, hb1,
      eq_self_iff_true, if_true, Bool.not_false]
    exact ⟨o, hfind, hpr, hpe, hnn, hcons⟩
  · have hlock : (s.locks.lookup (lockKey offer_id)).isSome = false := by
      cases hx : (s.locks.lookup (lockKey offer_id)).isSome
      · rfl
      · exact absurd hx hb1
    by_cases hb2 : o.available_for_reservation now = true
    · by_cases hb3 : o.quantity_remaining < q
      · simp only [create_reservation, RedisLockHelper.acquireStep, hlock,
          Bool.false_eq_true, if_false, Bool.not_true, hfind, hb2,
          Bool.not_false, eq_self_iff_true, if_true, hb3]
        exact ⟨o, hfind, hpr, hpe, hnn, hcons⟩
      · have hpo : 0 ≤ o.price_per_unit := by rw [hpr]; exact hprice
        have hdec1 :
            (PostgresOfferRepository.decrement_quantity s.offers offer_id q).1 = true := by
          unfold PostgresOfferRepository.decrement_quantity
          simp only [hfind, hb3, if_false]
        have hval : (ReservationInput.validates
            { offer_id := offer_id, customer_id := c, quantity := q,
              unit_price := o.price_per_unit,
              total_price := q * o.price_per_unit,
              currency := o.currency, pickup_start_time := o.pickup_start_time,
              pickup_end_time := o.pickup_end_time }) = true := by
          unfold ReservationInput.validates
          have h1 : (0 : Int) ≤ q * o.price_per_unit :=
            mul_nonneg (le_of_lt hq) hpo
          simp [hc, hq, hpo, h1]
        cases ok with
        | true =>
          obtain ⟨r, hr, hrq, hrp, hre⟩ := decrement_row s.offers offer_id q o hfind hb3
          simp only [create_reservation, RedisLockHelper.acquireStep, hlock,
            Bool.false_eq_true, if_false, Bool.not_true, hfind, hb2, hb3,
            Bool.not_false, eq_self_iff_true, if_true, hdec1, hval,
            PostgresReservationRepository.create]
          refine ⟨r, hr, hrp.trans hpr, hre.trans hpe, ?_, ?_⟩
          · rw [hrq]; omega
          · rw [hrq, confirmedQuantity_append]
            simp only [beq_self_eq_true, Bool.and_self, eq_self_iff_true, if_true]
            omega
        | false =>
          obtain ⟨r, hr, hrq, hrp, hre⟩ :=
            decrement_then_increment_row s.offers offer_id q now o hfind hb3
          simp only [create_reservation, RedisLockHelper.acquireStep, hlock,
            Bool.false_eq_true, if_false, Bool.not_true, hfind, hb2, hb3,
            Bool.not_false, eq_self_iff_true, if_true, hdec1, hval]
          refine ⟨r, hr, hrp.trans hpr, hre.trans hpe, ?_, ?_⟩
          · rw [hrq]; exact hnn
          · rw [hrq]; exact hcons
    · have hb2f : o.available_for_reservation now = false := by
        cases hx : o.available_for_reservation now
        · rfl
        · exact absurd hx hb2
      simp only [create_reservation, RedisLockHelper.acquireStep, hlock,
        Bool.false_eq_true, if_false, Bool.not_true, hfind, hb2f,
        Bool.not_false, eq_self_iff_true, if_true]
      exact ⟨o, hfind, hpr, hpe, hnn, hcons⟩

theorem createInvariant_runOps (h : RedisLockHelper) (now offer_id : Nat)
    (offer0 : Offer) (base : Int) (hprice : 0 ≤ offer0.price_per_unit)
    (ops : List Op)
    (hops : ∀ op ∈ ops, ∃ c q rid oid ok,
      op = Op.create c q rid oid ok ∧ 0 < q ∧ 0 < c) :
    ∀ s : SysState, CreateInvariant offer_id offer0 base s →
      CreateInvariant offer_id offer0 base (runOps h now offer_id s ops) := by
  induction ops with
  | nil => intro s hs; exact hs
  | cons op ops ih =>
    intro s hs
    obtain ⟨c, q, rid, oid, ok, heq, hq, hc⟩ := hops op (List.mem_cons_self op ops)
    subst heq
    exact ih (fun x hx => hops x (List.mem_cons_of_mem _ hx)) _
      (createInvariant_step h now offer_id offer0 base s c q rid oid ok hq hc
        hprice hs)

/-- Claim C8: (i) for every offer row and requested quantity above the
remaining units, decrement_quantity returns False leaving the store unchanged;
(ii) under a free lock, createReservation on an otherwise-available offer with
quantity > remaining reports the insufficient-inventory error with both stores
unchanged; (iii) over every sequence of createReservation calls with positive
requested quantities and customer ids (the input domain pydantic enforces)
against an offer starting with nonnegative remaining units,
quantity_remaining stays nonnegative, remaining plus the CONFIRMED reserved
total is conserved, and the CONFIRMED total never grows by more than the
initial quantity_remaining — no overselling. -/
theorem C8_no_overselling :
    (∀ (store : OfferStore) (i : Nat) (q : Int) (o : Offer),
      getOfferRow store i = some o → o.quantity_remaining < q →
      PostgresOfferRepository.decrement_quantity store i q = (false, store)) ∧
    (∀ (h : RedisLockHelper) (locks : LockStore) (offers : OfferStore)
        (reservations : ReservationStore) (c : Int) (i : Nat) (q : Int)
        (now rid : Nat) (oid : String) (ok : Bool) (o : Offer),
      (locks.lookup (lockKey i)).isSome = false →
      getOfferRow offers i = some o →
      o.available_for_reservation now = true →
      o.quantity_remaining < q →
      (create_reservation h locks offers reservations c i q now rid oid ok).result =
          .error (.insufficientInventory o.quantity_remaining) ∧
      (create_reservation h locks offers reservations c i q now rid oid ok).offers =
          offers ∧
      (create_reservation h locks offers reservations c i q now rid oid ok).reservations =
          reservations) ∧
    (∀ (h : RedisLockHelper) (now offer_id : Nat) (s : SysState) (o0 : Offer)
        (ops : List Op),
      getOfferRow s.offers offer_id = some o0 →
      0 ≤ o0.quantity_remaining → 0 ≤ o0.price_per_unit →
      (∀ op ∈ ops, ∃ c q rid oid ok,
        op = Op.create c q rid oid ok ∧ 0 < q ∧ 0 < c) →
      ∃ oF : Offer,
        getOfferRow (runOps h now offer_id s ops).offers offer_id = some oF ∧
        0 ≤ oF.quantity_remaining ∧
        oF.quantity_remaining +
            confirmedQuantity (runOps h now offer_id s ops).reservations offer_id =
          o0.quantity_remaining + confirmedQuantity s.reservations offer_id ∧
        confirmedQuantity (runOps h now offer_id s ops).reservations offer_id -
            confirmedQuantity s.reservations offer_id ≤ o0.quantity_remaining) := by
  refine ⟨?_, ?_, ?_⟩
  · intro store i q o hfind hlt
    unfold PostgresOfferRepository.decrement_quantity
    simp only [hfind, hlt, if_true]
  · intro h locks offers reservations c i q now rid oid ok o hlock hfind havail hlt
    refine ⟨?_, ?_, ?_⟩ <;>
      simp only [create_reservation, RedisLockHelper.acquireStep, hlock,
        Bool.false_eq_true, if_false, Bool.not_true, hfind, havail,
        Bool.not_false, eq_self_iff_true, if_true, hlt]
  · intro h now offer_id s o0 ops hfind hnn hprice hops
    have hinv0 : CreateInvariant offer_id o0
        (o0.quantity_remaining + confirmedQuantity s.reservations offer_id) s :=
      ⟨o0, hfind, rfl, rfl, hnn, rfl⟩
    obtain ⟨oF, hF, _, _, hnnF, hconsF⟩ :=
      createInvariant_runOps h now offer_id o0
        (o0.quantity_remaining + confirmedQuantity s.reservations offer_id)
        hprice ops hops s hinv0
    exact ⟨oF, hF, hnnF, hconsF, by omega⟩

/-- Claim C8 witness: requesting 9 of the 5 remaining units of `offerA` fails
the decrement with the store unchanged and makes createReservation report the
insufficient-inventory error; and a two-call sequence (reserve 2, then try 9)
against `stateA` conserves remaining + CONFIRMED total at 5 with nothing
oversold. -/
theorem C8_witness :
    PostgresOfferRepository.decrement_quantity [offerA] 0 9 = (false, [offerA]) ∧
    (create_reservation { } [] [offerA] [] 1 0 9 10 1 "RES-EEEE5555" true).result =
        .error (.insufficientInventory 5) ∧
    (∃ oF : Offer,
      getOfferRow (runOps { } 10 0 stateA
          [Op.create 1 2 1 "RES-AAAA1111" true,
            Op.create 2 9 2 "RES-FFFF6666" true]).offers 0 = some oF ∧
      0 ≤ oF.quantity_remaining ∧
      oF.quantity_remaining +
          confirmedQuantity (runOps { } 10 0 stateA
            [Op.create 1 2 1 "RES-AAAA1111" true,
              Op.create 2 9 2 "RES-FFFF6666" true]).reservations 0 =
        offerA.quantity_remaining + confirmedQuantity stateA.reservations 0 ∧
      confirmedQuantity (runOps { } 10 0 stateA
            [Op.create 1 2 1 "RES-AAAA1111" true,
              Op.create 2 9 2 "RES-FFFF6666" true]).reservations 0 -
          confirmedQuantity stateA.reservations 0 ≤ offerA.quantity_remaining) := by
  refine ⟨?_, ?_, ?_⟩
  · exact C8_no_overselling.1 [offerA] 0 9 offerA rfl (by decide)
  · exact (C8_no_overselling.2.1 { } [] [offerA] [] 1 0 9 10 1 "RES-EEEE5555"
      true offerA rfl rfl (by decide) (by decide)).1
  · refine C8_no_overselling.2.2 { } 10 0 stateA offerA
      [Op.create 1 2 1 "RES-AAAA1111" true, Op.create 2 9 2 "RES-FFFF6666" true]
      rfl (by decide) (by decide) ?_
    intro op hop
    simp only [List.mem_cons, List.not_mem_nil, or_false] at hop
    rcases hop with h1 | h2
    · exact ⟨1, 2, 1, "RES-AAAA1111", true, h1, by decide, by decide⟩
    · exact ⟨2, 9, 2, "RES-FFFF6666", true, h2, by decide, by decide⟩

end TGTG
